import Mathlib

/-!
Verification development for the realtime Anki tutoring session orchestrator
(`useRealtimeSession` in `src/components/ui/ConnectionCard.tsx`).

The shallow embedding below translates the hook's session state and its
operations (`fetchNextCardInternal`, `answerCardInternal`, `startStudySession`,
`disconnect`, `handleTransportEvent` restricted to the `evaluate_and_move_next`
tool) into pure Lean functions over an explicit `SessionState`.  External
collaborators (the AnkiConnect service, the mock deck service, the microphone
stream, the transport) are modelled as explicit environment parameters and
state fields:

* `AnkiEnv.cardsInfo i` is the result list of `realServiceRef.cardsInfo([i])`;
  `AnkiEnv.findDueCards d` is the result of `realServiceRef.findDueCards(d)`.
* `SessionState.answeredLog` records the `(cardId, ease)` pairs sent to
  `realServiceRef.answerCard` (the external side effect of grading).
* `SessionState.stream` holds the ids of the acquired microphone tracks;
  `SessionState.stoppedTracks` records every `track.stop()` call issued.
* `SessionState.debugInfo` is the accumulated debug transcript built by
  `appendDebug` (the hook's `setDebugInfo(prev => prev + '\n' + msg)`).
* JavaScript truthiness of `activeDeckNameRef.current` (a string-or-null) is
  modelled by matching on the `Option String`; the `|| null` coercion applied
  to the answered card's back text is modelled by `backOrNull` (an empty
  string is falsy in JavaScript and is therefore coerced to `null`).
-/

/-- Card identifier: the remote (AnkiConnect) source uses numeric ids, the
mock deck uses string ids (shimmed cards carry `card.id`). -/
inductive CardId where
  | real : Nat → CardId
  | mock : String → CardId
deriving DecidableEq

/-- A card as held in `currentCardRef` / `currentCard`: both real AnkiConnect
card-info objects and shimmed mock cards expose `cardId`,
`fields.Front.value` and `fields.Back.value`; `front`/`back` model the two
field values. -/
structure SessionCard where
  cardId : CardId
  front : String
  back : String
deriving DecidableEq

/-- A card of the in-memory mock deck (`mock_deck.ts`). -/
structure MockCard where
  id : String
  front : String
  back : String
  status : String
deriving DecidableEq

/-- State of the mock `AnkiService`: a cloned deck and a cursor. -/
structure MockState where
  deck : List MockCard
  currentIndex : Nat
deriving DecidableEq

/-- `AnkiService.getNextCard`: returns `null` past the end of the deck,
otherwise the card at `currentIndex` and advances the cursor. -/
def mockGetNextCard (m : MockState) : MockState × Option MockCard :=
  if m.currentIndex ≥ m.deck.length then (m, none)
  else ({ m with currentIndex := m.currentIndex + 1 }, m.deck.get? m.currentIndex)

/-- The session state owned by `useRealtimeSession`: React state, refs, and
the externally observable effect logs (`answeredLog`, `stoppedTracks`). -/
structure SessionState where
  isConnected : Bool
  isConnecting : Bool
  errorMsg : Option String
  debugInfo : String
  evaluation : Option String
  isStudyMode : Bool
  currentCardUI : Option SessionCard
  sessionRef : Bool
  toolCallNames : List (String × String)
  activeDeckName : Option String
  realQueue : List Nat
  currentCardRef : Option SessionCard
  stream : Option (List Nat)
  stoppedTracks : List Nat
  mockService : MockState
  answeredLog : List (CardId × Nat)
deriving DecidableEq

/-- `appendDebug`: `setDebugInfo(prev => prev + '\n' + msg)`. -/
def appendDebug (s : SessionState) (msg : String) : SessionState :=
  { s with debugInfo := s.debugInfo ++ ("\n") ++ msg }

/-- Environment snapshot of the external AnkiConnect service:
`cardsInfo i` models `cardsInfo([i])`, `findDueCards d` models
`findCards(deck:"d" is:due)`. -/
structure AnkiEnv where
  findDueCards : String → List Nat
  cardsInfo : Nat → List SessionCard

/-- `fetchNextCardInternal`: in real mode (deck name truthy) it reads the
queue head, fetches its details, and only on a non-empty result pops the head
and rebinds the current card; in mock mode it pulls the next mock card and
shims it to the real card shape. -/
def fetchNextCardInternal (env : AnkiEnv) (s : SessionState) :
    SessionState × Option SessionCard :=
  match s.activeDeckName with
  | some _ =>
    match s.realQueue with
    | [] => (s, none)
    | nextId :: rest =>
      match env.cardsInfo nextId with
      | [] => (s, none)
      | card :: _ =>
        ({ s with realQueue := rest, currentCardRef := some card,
                  currentCardUI := some card }, some card)
  | none =>
    match mockGetNextCard s.mockService with
    | (m, some card) =>
      let shimmed : SessionCard :=
        { cardId := CardId.mock card.id, front := card.front, back := card.back }
      ({ s with mockService := m, currentCardRef := some shimmed,
                currentCardUI := some shimmed }, some shimmed)
    | (m, none) => ({ s with mockService := m }, none)

/-- `answerCardInternal`: in real mode with a bound current card, maps the
verdict to an ease value (`correct` ↦ 3, anything else ↦ 1) and submits it to
the external service (recorded in `answeredLog`); otherwise a logged no-op. -/
def answerCardInternal (s : SessionState) (verdict : String) : SessionState :=
  match s.activeDeckName, s.currentCardRef with
  | some _, some card =>
    let ease : Nat := if verdict = ("correct") then 3 else 1
    { s with answeredLog := s.answeredLog ++ [(card.cardId, ease)] }
  | _, _ => s

/-- The `|| null` coercion applied to
`currentCardRef.current?.fields?.Back?.value`: a missing card or an empty
(JavaScript-falsy) back text yields `null`. -/
def backOrNull : Option SessionCard → Option String
  | some c => if c.back = ("") then none else some c.back
  | none => none

/-- The argument payload of a `response.function_call_arguments.done` event:
either a string that fails `JSON.parse`, or parsed arguments carrying
`user_response_quality` and `feedback_text`. -/
inductive ToolPayload where
  | malformed : String → ToolPayload
  | valid : String → String → ToolPayload

/-- The `next_card` object of the tool output. -/
structure NextCardOutput where
  front : String
  back : String
deriving DecidableEq

/-- The reserved end-of-session sentinel returned when no next card exists. -/
def endOfSessionSentinel : NextCardOutput :=
  { front := ("END OF SESSION"), back := ("END OF SESSION") }

/-- The JSON object sent back as `function_call_output` for
`evaluate_and_move_next`. -/
structure ToolOutput where
  status : String
  answered_card_back : Option String
  next_card : NextCardOutput
deriving DecidableEq

/-- The `enum` of `user_response_quality` in the tool schema declared to the
transport in `startStudySession`'s `session.update` payload. -/
def evaluateAndMoveNextEnum : List String := [("correct"), ("incorrect")]

/-- The `evaluate_and_move_next` branch of the tool-execution handler: a parse
failure is caught and logged; a parsed payload sets the verdict badge,
captures the answered card's back text before any mutation, submits the
grade, fetches the next card, and returns the output object (`none` output
means nothing was sent back over the transport). -/
def serviceEvalMove (env : AnkiEnv) (s : SessionState) (p : ToolPayload) :
    SessionState × Option ToolOutput :=
  match p with
  | ToolPayload.malformed _ => (appendDebug s (("Tool Error: SyntaxError")), none)
  | ToolPayload.valid verdict feedback =>
    let s1 := { appendDebug s ((("[Evaluation] ") ++ verdict ++ (" - ") ++ feedback))
                  with evaluation := some verdict }
    let answeredCardBack := backOrNull s1.currentCardRef
    let s2 := answerCardInternal s1 verdict
    let fr := fetchNextCardInternal env s2
    let nextCardOutput :=
      match fr.2 with
      | some c => { front := c.front, back := c.back : NextCardOutput }
      | none => endOfSessionSentinel
    let s4 := appendDebug fr.1
      ((("[Tool Result] Next Card: ") ++
        (match fr.2 with | some _ => ("Loaded") | none => ("End"))))
    (s4, some { status := ("success"), answered_card_back := answeredCardBack,
                next_card := nextCardOutput })

/-- State after servicing a well-formed `evaluate_and_move_next` call. -/
def svcState (env : AnkiEnv) (s : SessionState) (q fb : String) : SessionState :=
  (serviceEvalMove env s (ToolPayload.valid q fb)).1

/-- Output sent back for a well-formed `evaluate_and_move_next` call. -/
def svcOut (env : AnkiEnv) (s : SessionState) (q fb : String) : Option ToolOutput :=
  (serviceEvalMove env s (ToolPayload.valid q fb)).2

/-- The transport events consumed by `handleTransportEvent` (delta events are
ignored; `outputItemAdded` models a `response.output_item.added` event whose
item is a `function_call`). -/
inductive TransportEvent where
  | audioTranscriptDone : String → TransportEvent
  | inputTranscriptionCompleted : String → TransportEvent
  | audioDelta : TransportEvent
  | audioTranscriptDelta : TransportEvent
  | outputItemAdded : String → String → TransportEvent
  | functionCallArgumentsDone : String → ToolPayload → TransportEvent

/-- `handleTransportEvent`: returns early when no session is bound, logs
transcripts, ignores deltas, registers announced tool calls, and services
`evaluate_and_move_next` argument-completion events; the second component is
the tool output sent back over the transport (if any). -/
def handleTransportEvent (env : AnkiEnv) (s : SessionState) (e : TransportEvent) :
    SessionState × Option ToolOutput :=
  if s.sessionRef = false then (s, none)
  else
    match e with
    | TransportEvent.audioTranscriptDone t =>
      (appendDebug s ((("[AI]: ") ++ t)), none)
    | TransportEvent.inputTranscriptionCompleted t =>
      (appendDebug s ((("[User]: ") ++ t)), none)
    | TransportEvent.audioDelta => (s, none)
    | TransportEvent.audioTranscriptDelta => (s, none)
    | TransportEvent.outputItemAdded callId nm =>
      ({ appendDebug s ((("[Tool Queued] ") ++ nm))
           with toolCallNames := (callId, nm) :: s.toolCallNames }, none)
    | TransportEvent.functionCallArgumentsDone callId p =>
      let nm := s.toolCallNames.lookup callId
      let s1 := appendDebug s ((("[Tool Executing] ") ++ nm.getD (("undefined"))))
      if nm = some (("evaluate_and_move_next")) then serviceEvalMove env s1 p
      else (s1, none)

/-- `disconnect`: tears down the session inside a `try`/`catch` (the
`teardownFails` flag models the teardown call raising; the `catch` only issues
a `console.warn`, so the resulting state does not depend on it), then
unconditionally stops every acquired microphone track, clears the session
fields and logs. -/
def disconnect (s : SessionState) (teardownFails : Bool) : SessionState :=
  let _ := teardownFails
  let s1 := if s.sessionRef = true then { s with sessionRef := false } else s
  let s2 :=
    match s1.stream with
    | some tracks =>
      appendDebug { s1 with stream := none,
                            stoppedTracks := s1.stoppedTracks ++ tracks }
        (("Microphone stream stopped."))
    | none => s1
  appendDebug { s2 with isConnected := false, isStudyMode := false,
                        activeDeckName := none, currentCardUI := none }
    (("Disconnected."))

/-- The track ids currently held by the microphone stream ref. -/
def streamTracks (s : SessionState) : List Nat := s.stream.getD []

/-- Environment for `startStudySession`: the AnkiConnect snapshot plus the
outcome of the auto-`connect(true)` path (microphone + transport acquisition,
summarized by whether it succeeds and which tracks it acquires). -/
structure StudyEnv where
  anki : AnkiEnv
  connectOk : Bool
  micTracks : List Nat

/-- The state effects of `connect(skipGreeting)` (§ auto-connect path of
`startStudySession`): on success the session and microphone stream are bound
and `isConnected` is set; on failure the error is recorded; `isConnecting` is
reset in the `finally` block. -/
def connectForStudy (env : StudyEnv) (s : SessionState) : SessionState × Bool :=
  if env.connectOk = true then
    ({ s with isConnecting := false, isConnected := true, sessionRef := true,
              stream := some env.micTracks, errorMsg := none }, true)
  else
    ({ s with isConnecting := false, isConnected := false,
              errorMsg := some (("connect failed")) }, false)

/-- `startStudySession(deckName?)`: auto-connects when no session exists and
aborts on failure; sets study mode; binds the active deck (a provided name
wins, an absent name keeps a previously bound deck and only logs the fallback
when none exists); clears the current card; performs the initial card fetch;
then, in real mode, populates the due queue from `findDueCards` and re-fetches
the first card, while mock mode resets the mock service cursor
(`startSession`).  The outbound `session.update` / greeting messages carry no
session state and are not modelled. -/
def startStudySession (env : StudyEnv) (s : SessionState)
    (deckName : Option String) : SessionState :=
  let c := if s.sessionRef = true then (s, true) else connectForStudy env s
  if c.2 = false then
    appendDebug c.1 (("Failed to auto-connect. Aborting study session."))
  else
    let s1 := { c.1 with isStudyMode := true }
    let s2 :=
      match deckName with
      | some dn => { s1 with activeDeckName := some dn }
      | none =>
        match s1.activeDeckName with
        | some _ => s1
        | none =>
          appendDebug s1
            (("No deckName provided. Falling back to Mock Mode (or previous deck if any)."))
    let s3 := { s2 with currentCardRef := none, currentCardUI := none }
    let s4 := (fetchNextCardInternal env.anki s3).1
    match s4.activeDeckName with
    | some d =>
      let s5 := { s4 with realQueue := env.anki.findDueCards d }
      (fetchNextCardInternal env.anki s5).1
    | none =>
      { s4 with mockService := { deck := s4.mockService.deck, currentIndex := 0 } }

/-- JavaScript truthiness of the `evaluation` state value
(`'correct' | 'incorrect' | null`): `null` and the empty string are falsy. -/
def truthyEval : Option String → Bool
  | none => false
  | some v => if v = ("") then false else true

/-- The verdict badge state driven by the `useEffect` on `[evaluation]`:
the displayed value and the pending `setTimeout` deadline (ms). -/
structure BadgeState where
  evaluation : Option String
  timerDeadline : Option Nat
deriving DecidableEq

/-- A `setEvaluation` call observed by the effect at time `now`: React bails
out when the value is unchanged (the effect does not re-run); otherwise the
cleanup cancels the pending timer and, for a truthy value, a fresh
`setTimeout(..., 3000)` is armed. -/
def applyEvaluationSet (b : BadgeState) (now : Nat) (v : Option String) :
    BadgeState :=
  if v = b.evaluation then b
  else { evaluation := v,
         timerDeadline := if truthyEval v = true then some (now + 3000) else none }

/-- The pending timer firing at time `now`: when the deadline matches, the
badge is cleared (`setEvaluation(null)`) and, the new value being falsy, no
new timer is armed; a cancelled/stale timer is a no-op. -/
def evaluationTimerFire (b : BadgeState) (now : Nat) : BadgeState :=
  if b.timerDeadline = some now then { evaluation := none, timerDeadline := none }
  else b

/-- A quiescent base state: disconnected values everywhere, empty mock deck. -/
def baseState : SessionState :=
  { isConnected := false, isConnecting := false, errorMsg := none,
    debugInfo := (""), evaluation := none, isStudyMode := false,
    currentCardUI := none, sessionRef := false, toolCallNames := [],
    activeDeckName := none, realQueue := [], currentCardRef := none,
    stream := none, stoppedTracks := [],
    mockService := { deck := [], currentIndex := 0 }, answeredLog := [] }

/-- An AnkiConnect snapshot with no due cards and no card details. -/
def emptyEnv : AnkiEnv :=
  { findDueCards := fun _ => [], cardsInfo := fun _ => [] }

/-- A mock card whose back text is the empty string. -/
def emptyBackCard : SessionCard :=
  { cardId := CardId.mock (("c1")), front := ("F1"), back := ("") }

/-- Mock-mode state with `emptyBackCard` bound as the current card. -/
def emptyBackState : SessionState :=
  { baseState with sessionRef := true, isConnected := true, isStudyMode := true,
                   currentCardRef := some emptyBackCard,
                   currentCardUI := some emptyBackCard }

/-- A mock card with a non-empty back text. -/
def plainCard : SessionCard :=
  { cardId := CardId.mock (("m1")), front := ("F1"), back := ("B1") }

/-- Mock-mode state with `plainCard` bound as the current card. -/
def plainCardState : SessionState :=
  { baseState with sessionRef := true, isConnected := true, isStudyMode := true,
                   currentCardRef := some plainCard,
                   currentCardUI := some plainCard }

/-- The remote card with id 0 (a previously answered card). -/
def remoteCard0 : SessionCard :=
  { cardId := CardId.real 0, front := ("F0"), back := ("B0") }

/-- The remote card with id 1 (the due-queue head in the examples). -/
def remoteCard1 : SessionCard :=
  { cardId := CardId.real 1, front := ("F1"), back := ("B1") }

/-- The remote card with id 5 (current card of the exhausted-queue example). -/
def remoteCard5 : SessionCard :=
  { cardId := CardId.real 5, front := ("F5"), back := ("B5") }

/-- Remote-mode state whose due queue is exhausted while `remoteCard5` is
still bound as the current card. -/
def exhaustedState : SessionState :=
  { baseState with sessionRef := true, isConnected := true, isStudyMode := true,
                   activeDeckName := some (("D")), realQueue := [],
                   currentCardRef := some remoteCard5,
                   currentCardUI := some remoteCard5 }

/-- Remote-mode state with due queue `[1]` and `remoteCard0` current. -/
def queuedState : SessionState :=
  { baseState with sessionRef := true, isConnected := true, isStudyMode := true,
                   activeDeckName := some (("D")), realQueue := [1],
                   currentCardRef := some remoteCard0,
                   currentCardUI := some remoteCard0 }

/-- `queuedState` with the `evaluate_and_move_next` call announced under call
id `call_1` in the tool-call name registry. -/
def queuedStateWithCall : SessionState :=
  { queuedState with
      toolCallNames := [((("call_1")), (("evaluate_and_move_next")))] }

/-- AnkiConnect snapshot that knows the details of card 1 only. -/
def card1Env : AnkiEnv :=
  { findDueCards := fun _ => [1],
    cardsInfo := fun i => if i = 1 then [remoteCard1] else [] }

/-- Study environment whose auto-connect succeeds and whose deck is empty. -/
def studyEnvNoCards : StudyEnv :=
  { anki := emptyEnv, connectOk := true, micTracks := [] }

/-- Connected state holding one acquired microphone track (id 7). -/
def micState : SessionState :=
  { baseState with sessionRef := true, isConnected := true, stream := some [7] }

/-! Preservation lemmas: which `SessionState` fields each operation leaves
untouched.  They let the tool-call servicing proofs relate the fetch phase to
the pre-call state. -/

@[simp]
theorem answerCardInternal_activeDeckName (s : SessionState) (q : String) :
    (answerCardInternal s q).activeDeckName = s.activeDeckName := by
  unfold answerCardInternal; split <;> rfl

@[simp]
theorem answerCardInternal_realQueue (s : SessionState) (q : String) :
    (answerCardInternal s q).realQueue = s.realQueue := by
  unfold answerCardInternal; split <;> rfl

@[simp]
theorem answerCardInternal_mockService (s : SessionState) (q : String) :
    (answerCardInternal s q).mockService = s.mockService := by
  unfold answerCardInternal; split <;> rfl

@[simp]
theorem answerCardInternal_currentCardRef (s : SessionState) (q : String) :
    (answerCardInternal s q).currentCardRef = s.currentCardRef := by
  unfold answerCardInternal; split <;> rfl

@[simp]
theorem answerCardInternal_currentCardUI (s : SessionState) (q : String) :
    (answerCardInternal s q).currentCardUI = s.currentCardUI := by
  unfold answerCardInternal; split <;> rfl

@[simp]
theorem answerCardInternal_evaluation (s : SessionState) (q : String) :
    (answerCardInternal s q).evaluation = s.evaluation := by
  unfold answerCardInternal; split <;> rfl

@[simp]
theorem fetchNext_fst_activeDeckName (env : AnkiEnv) (s : SessionState) :
    (fetchNextCardInternal env s).1.activeDeckName = s.activeDeckName := by
  unfold fetchNextCardInternal
  split
  · split
    · rfl
    · split <;> rfl
  · split <;> rfl

@[simp]
theorem fetchNext_fst_answeredLog (env : AnkiEnv) (s : SessionState) :
    (fetchNextCardInternal env s).1.answeredLog = s.answeredLog := by
  unfold fetchNextCardInternal
  split
  · split
    · rfl
    · split <;> rfl
  · split <;> rfl

@[simp]
theorem fetchNext_fst_evaluation (env : AnkiEnv) (s : SessionState) :
    (fetchNextCardInternal env s).1.evaluation = s.evaluation := by
  unfold fetchNextCardInternal
  split
  · split
    · rfl
    · split <;> rfl
  · split <;> rfl

/-- The fetched-card result depends only on the active deck, the due queue and
the mock-service state. -/
theorem fetchNext_snd_congr (env : AnkiEnv) (s₁ s₂ : SessionState)
    (hd : s₁.activeDeckName = s₂.activeDeckName)
    (hq : s₁.realQueue = s₂.realQueue)
    (hm : s₁.mockService = s₂.mockService) :
    (fetchNextCardInternal env s₁).2 = (fetchNextCardInternal env s₂).2 := by
  unfold fetchNextCardInternal
  rw [hd, hq, hm]
  cases hdk : s₂.activeDeckName with
  | some d =>
    cases hq2 : s₂.realQueue with
    | nil => simp
    | cons nid rest => cases hinfo : env.cardsInfo nid <;> simp [hinfo]
  | none =>
    cases hmg : mockGetNextCard s₂.mockService with
    | mk m oc => cases oc <;> simp

/-- The serviced call's `next_card` is determined by a fetch performed on the
pre-call state. -/
theorem svcOut_next_card (env : AnkiEnv) (s : SessionState) (q fb : String) :
    (svcOut env s q fb).map ToolOutput.next_card =
      some (match (fetchNextCardInternal env s).2 with
            | some c => { front := c.front, back := c.back : NextCardOutput }
            | none => endOfSessionSentinel) := by
  unfold svcOut serviceEvalMove
  have hc :
      (fetchNextCardInternal env
        (answerCardInternal
          { appendDebug s ((("[Evaluation] ") ++ q ++ (" - ") ++ fb))
              with evaluation := some q } q)).2 =
      (fetchNextCardInternal env s).2 := by
    apply fetchNext_snd_congr <;> simp [appendDebug]
  simp only [hc]
  cases (fetchNextCardInternal env s).2 <;> simp

/-- The serviced call's `answered_card_back` is the coerced back text of the
pre-call current card. -/
theorem svcOut_answered (env : AnkiEnv) (s : SessionState) (q fb : String) :
    (svcOut env s q fb).map ToolOutput.answered_card_back =
      some (backOrNull s.currentCardRef) := by
  unfold svcOut serviceEvalMove
  simp [appendDebug]

/-- C1 (amended): for every successfully serviced `evaluate_and_move_next`
call, `answered_card_back` equals the falsy-coerced (`|| null`) back text of
the card that was current immediately before the call was serviced; in
particular, whenever the pre-call card's back text is non-empty, the field
never equals any other back text (and hence never the newly fetched card's
back text when the two texts differ). -/
theorem c1_answered_back_amended (env : AnkiEnv) (s : SessionState) (q fb : String) :
    (svcOut env s q fb).map ToolOutput.answered_card_back =
      some (backOrNull s.currentCardRef) ∧
    (∀ c cNext : SessionCard, s.currentCardRef = some c → c.back ≠ ("") →
      cNext.back ≠ c.back →
      (svcOut env s q fb).map ToolOutput.answered_card_back ≠
        some (some cNext.back)) := by
  refine ⟨svcOut_answered env s q fb, ?_⟩
  intro c cNext hc hne hdiff
  rw [svcOut_answered env s q fb, hc]
  simp [backOrNull, hne]
  exact fun heq => hdiff heq.symm

/-- C1 (counterexample): with a current card whose back text is the empty
string, the serviced call returns `answered_card_back = null`, not the card's
back text — the JavaScript `|| null` coerces the empty string away. -/
theorem c1_empty_back_counterexample :
    emptyBackState.currentCardRef = some emptyBackCard ∧
    emptyBackCard.back = ("") ∧
    (svcOut emptyEnv emptyBackState (("correct")) (("ok"))).map
        ToolOutput.answered_card_back = some none ∧
    (svcOut emptyEnv emptyBackState (("correct")) (("ok"))).map
        ToolOutput.answered_card_back ≠ some (some emptyBackCard.back) := by
  refine ⟨rfl, rfl, by decide, by decide⟩

/-- C1 (witness): concrete instance of `c1_answered_back_amended` on a card
with back text `B1`. -/
theorem c1_answered_back_witness :
    (svcOut emptyEnv plainCardState (("correct")) (("ok"))).map
        ToolOutput.answered_card_back = some (some (("B1"))) ∧
    (svcOut emptyEnv plainCardState (("correct")) (("ok"))).map
        ToolOutput.answered_card_back ≠ some (some (("ZZ"))) := by
  have h := c1_answered_back_amended emptyEnv plainCardState (("correct")) (("ok"))
  constructor
  · rw [h.1]; decide
  · exact h.2 plainCard
      { cardId := CardId.mock (("x")), front := ("X"), back := ("ZZ") }
      rfl (by decide) (by decide)

/-- C3 (confirmed): whenever no next card can be fetched, the serviced call's
`next_card` output is the end-of-session sentinel object, never a null or
absent value. -/
theorem c3_end_of_session_sentinel (env : AnkiEnv) (s : SessionState) (q fb : String)
    (hfetch : (fetchNextCardInternal env s).2 = none) :
    (svcOut env s q fb).map ToolOutput.next_card = some endOfSessionSentinel := by
  rw [svcOut_next_card env s q fb, hfetch]

/-- C3 (witness): a remote session with an exhausted due queue returns the
sentinel. -/
theorem c3_sentinel_witness :
    (svcOut emptyEnv exhaustedState (("correct")) (("fb"))).map
        ToolOutput.next_card = some endOfSessionSentinel :=
  c3_end_of_session_sentinel emptyEnv exhaustedState (("correct")) (("fb"))
    (by decide)

/-- C10 (confirmed): in remote mode, when the card-detail lookup for the due
queue head returns an empty result, the serviced call leaves the queue (head
included) and the current card untouched, yet reports the end-of-session
sentinel to the agent although the queue is still non-empty; the same head id
is consulted again by the next call. -/
theorem c10_missing_info_retry (env : AnkiEnv) (s : SessionState) (q fb : String)
    (h : Nat) (t : List Nat)
    (hd : s.activeDeckName.isSome = true)
    (hq : s.realQueue = h :: t)
    (hinfo : env.cardsInfo h = []) :
    (svcState env s q fb).realQueue = s.realQueue ∧
    (svcState env s q fb).currentCardRef = s.currentCardRef ∧
    (svcState env s q fb).currentCardUI = s.currentCardUI ∧
    (svcState env s q fb).realQueue.head? = some h ∧
    s.realQueue ≠ [] ∧
    (svcOut env s q fb).map ToolOutput.next_card = some endOfSessionSentinel := by
  rcases hdk : s.activeDeckName with _ | d
  · rw [hdk] at hd; simp at hd
  · rcases hcc : s.currentCardRef with _ | c0 <;>
      refine ⟨?_, ?_, ?_, ?_, ?_, ?_⟩ <;>
      simp [svcState, svcOut, serviceEvalMove, answerCardInternal,
            fetchNextCardInternal, appendDebug, hdk, hq, hinfo, hcc]

/-- C10 (witness): concrete instance with queue `[1]` and a lookup that knows
no cards. -/
theorem c10_missing_info_witness :
    (svcState emptyEnv queuedState (("correct")) (("f"))).realQueue = [1] ∧
    (svcState emptyEnv queuedState (("correct")) (("f"))).currentCardRef =
      some remoteCard0 ∧
    (svcOut emptyEnv queuedState (("correct")) (("f"))).map ToolOutput.next_card =
      some endOfSessionSentinel := by
  have h := c10_missing_info_retry emptyEnv queuedState (("correct")) (("f"))
    1 [] rfl rfl rfl
  exact ⟨by rw [h.1]; rfl, by rw [h.2.1]; rfl, h.2.2.2.2.2⟩

/-- C4 (amended): the `{correct, incorrect}` enumeration exists only in the
tool schema declared to the transport; the local tool-call handler performs no
validation of `user_response_quality` — any other value is stored as the
verdict badge, silently coerced to ease 1 (the `incorrect` grade) when a
remote card is graded, and the call proceeds and returns an output. -/
theorem c4_no_validation_amended (env : AnkiEnv) (s : SessionState) (q fb : String)
    (d : String) (c : SessionCard)
    (hq : q ≠ ("correct")) (hd : s.activeDeckName = some d)
    (hc : s.currentCardRef = some c) :
    evaluateAndMoveNextEnum = [("correct"), ("incorrect")] ∧
    (svcOut env s q fb).isSome = true ∧
    (svcState env s q fb).evaluation = some q ∧
    (svcState env s q fb).answeredLog = s.answeredLog ++ [(c.cardId, 1)] := by
  refine ⟨rfl, ?_, ?_, ?_⟩ <;>
    simp [svcState, svcOut, serviceEvalMove, answerCardInternal, appendDebug,
          hd, hc, hq]

/-- C4 (counterexample): the value `maybe` is outside the declared enumeration,
yet the handler services the call, records the badge, grades the current card
with ease 1 and returns a success output instead of rejecting the payload. -/
theorem c4_invalid_enum_counterexample :
    ("maybe") ≠ ("correct") ∧ ("maybe") ≠ ("incorrect") ∧
    (svcOut emptyEnv exhaustedState (("maybe")) (("eh"))).isSome = true ∧
    (svcState emptyEnv exhaustedState (("maybe")) (("eh"))).answeredLog =
      [(CardId.real 5, 1)] ∧
    (svcState emptyEnv exhaustedState (("maybe")) (("eh"))).evaluation =
      some (("maybe")) := by
  refine ⟨by decide, by decide, by decide, by decide, by decide⟩

/-- C4 (witness): concrete instance of `c4_no_validation_amended`. -/
theorem c4_no_validation_witness :
    (svcOut emptyEnv exhaustedState (("wrong")) (("x"))).isSome = true ∧
    (svcState emptyEnv exhaustedState (("wrong")) (("x"))).answeredLog =
      [(CardId.real 5, 1)] := by
  have h := c4_no_validation_amended emptyEnv exhaustedState (("wrong")) (("x"))
    (("D")) remoteCard5 (by decide) rfl rfl
  exact ⟨h.2.1, by rw [h.2.2.2]; rfl⟩

/-- C2 (amended): per successfully serviced call in remote mode — when the
head card's detail lookup succeeds, exactly one id is popped (queue length
decreases by one) and the current card is rebound to the fetched head card,
which differs from the previous current card whenever their identifiers
differ; when the queue is exhausted, queue and current card are unchanged (the
current card does NOT become a sentinel) and the end-of-session sentinel
appears only in the returned `next_card` field. -/
theorem c2_queue_advance_amended (env : AnkiEnv) (s : SessionState) (q fb : String)
    (hd : s.activeDeckName.isSome = true) :
    (∀ h t c cs, s.realQueue = h :: t → env.cardsInfo h = c :: cs →
      (svcState env s q fb).realQueue = t ∧
      (svcState env s q fb).realQueue.length + 1 = s.realQueue.length ∧
      (svcState env s q fb).currentCardRef = some c ∧
      (svcOut env s q fb).isSome = true ∧
      (∀ c0, s.currentCardRef = some c0 → c0.cardId ≠ c.cardId →
        (svcState env s q fb).currentCardRef ≠ s.currentCardRef)) ∧
    (s.realQueue = [] →
      (svcState env s q fb).realQueue = [] ∧
      (svcState env s q fb).currentCardRef = s.currentCardRef ∧
      (svcOut env s q fb).map ToolOutput.next_card = some endOfSessionSentinel) := by
  rcases hdk : s.activeDeckName with _ | d
  · rw [hdk] at hd; simp at hd
  · constructor
    · intro h t c cs hqq hinfo
      have hmain : (svcState env s q fb).realQueue = t ∧
          (svcState env s q fb).currentCardRef = some c ∧
          (svcOut env s q fb).isSome = true := by
        rcases hcc : s.currentCardRef with _ | c0 <;>
          refine ⟨?_, ?_, ?_⟩ <;>
          simp [svcState, svcOut, serviceEvalMove, answerCardInternal,
                fetchNextCardInternal, appendDebug, hdk, hqq, hinfo, hcc]
      refine ⟨hmain.1, ?_, hmain.2.1, hmain.2.2, ?_⟩
      · rw [hmain.1, hqq]; rfl
      · intro c0 hc0 hne
        rw [hmain.2.1, hc0]
        intro heq
        exact hne (congrArg SessionCard.cardId (Option.some.inj heq)).symm
    · intro hqq
      rcases hcc : s.currentCardRef with _ | c0 <;>
        refine ⟨?_, ?_, ?_⟩ <;>
        simp [svcState, svcOut, serviceEvalMove, answerCardInternal,
              fetchNextCardInternal, appendDebug, hdk, hqq, hcc]

/-- C2 (counterexample): a serviced call on an exhausted queue leaves the
current card bound to the very same identifier as before; the current card
does not become the end-of-session sentinel (only the output's `next_card`
does), so the claim's exhaustion clause is false on the code. -/
theorem c2_exhausted_counterexample :
    exhaustedState.activeDeckName.isSome = true ∧
    exhaustedState.realQueue = [] ∧
    (svcOut emptyEnv exhaustedState (("correct")) (("ok"))).isSome = true ∧
    (svcState emptyEnv exhaustedState (("correct")) (("ok"))).currentCardRef =
      exhaustedState.currentCardRef ∧
    exhaustedState.currentCardRef = some remoteCard5 ∧
    remoteCard5.front ≠ ("END OF SESSION") ∧
    remoteCard5.back ≠ ("END OF SESSION") := by
  refine ⟨rfl, rfl, by decide, by decide, rfl, by decide, by decide⟩

/-- C2 (witness): concrete instance of `c2_queue_advance_amended` — queue `[1]`
advances to `[]`, the current card moves from id 0 to id 1. -/
theorem c2_queue_advance_witness :
    (svcState card1Env queuedState (("correct")) (("f"))).realQueue = [] ∧
    (svcState card1Env queuedState (("correct")) (("f"))).currentCardRef =
      some remoteCard1 ∧
    (svcOut card1Env queuedState (("correct")) (("f"))).isSome = true ∧
    (svcState card1Env queuedState (("correct")) (("f"))).currentCardRef ≠
      queuedState.currentCardRef := by
  have h := c2_queue_advance_amended card1Env queuedState (("correct")) (("f"))
    (by decide)
  have h1 := h.1 1 [] remoteCard1 [] rfl (by decide)
  exact ⟨h1.1, h1.2.2.1, h1.2.2.2.1, h1.2.2.2.2 remoteCard0 rfl (by decide)⟩

/-- C5 (amended): a payload that fails to parse as JSON is caught and logged
by the handler (which returns normally — the model is a total function), and
the due queue, the current card and the verdict badge are unchanged, with no
output sent back; a payload with an invalid enum value, by contrast, is not
rejected and is processed like a normal call (see the counterexample). -/
theorem c5_parse_failure_amended (env : AnkiEnv) (s : SessionState)
    (callId raw : String)
    (hs : s.sessionRef = true)
    (hreg : s.toolCallNames.lookup callId = some (("evaluate_and_move_next"))) :
    (handleTransportEvent env s
        (TransportEvent.functionCallArgumentsDone callId
          (ToolPayload.malformed raw))).1.realQueue = s.realQueue ∧
    (handleTransportEvent env s
        (TransportEvent.functionCallArgumentsDone callId
          (ToolPayload.malformed raw))).1.currentCardRef = s.currentCardRef ∧
    (handleTransportEvent env s
        (TransportEvent.functionCallArgumentsDone callId
          (ToolPayload.malformed raw))).1.currentCardUI = s.currentCardUI ∧
    (handleTransportEvent env s
        (TransportEvent.functionCallArgumentsDone callId
          (ToolPayload.malformed raw))).2 = none ∧
    (handleTransportEvent env s
        (TransportEvent.functionCallArgumentsDone callId
          (ToolPayload.malformed raw))).1.debugInfo =
      (appendDebug
        (appendDebug s ((("[Tool Executing] ") ++ ("evaluate_and_move_next"))))
        (("Tool Error: SyntaxError"))).debugInfo := by
  refine ⟨?_, ?_, ?_, ?_, ?_⟩ <;>
    simp [handleTransportEvent, serviceEvalMove, appendDebug, hs, hreg]

/-- C5 (counterexample): a payload with the invalid enum value `maybe` does
crash nothing, but it mutates both the due queue and the current card — the
claim's "leave the due queue and current card unchanged" is false for the
invalid-enum case it includes. -/
theorem c5_invalid_enum_mutates_counterexample :
    ("maybe") ≠ ("correct") ∧ ("maybe") ≠ ("incorrect") ∧
    (handleTransportEvent card1Env queuedStateWithCall
        (TransportEvent.functionCallArgumentsDone (("call_1"))
          (ToolPayload.valid (("maybe")) (("x"))))).1.realQueue ≠
      queuedStateWithCall.realQueue ∧
    (handleTransportEvent card1Env queuedStateWithCall
        (TransportEvent.functionCallArgumentsDone (("call_1"))
          (ToolPayload.valid (("maybe")) (("x"))))).1.currentCardRef ≠
      queuedStateWithCall.currentCardRef := by
  refine ⟨by decide, by decide, by decide, by decide⟩

/-- C5 (witness): concrete instance of `c5_parse_failure_amended`. -/
theorem c5_parse_failure_witness :
    (handleTransportEvent card1Env queuedStateWithCall
        (TransportEvent.functionCallArgumentsDone (("call_1"))
          (ToolPayload.malformed (("oops"))))).1.realQueue = [1] ∧
    (handleTransportEvent card1Env queuedStateWithCall
        (TransportEvent.functionCallArgumentsDone (("call_1"))
          (ToolPayload.malformed (("oops"))))).2 = none := by
  have h := c5_parse_failure_amended card1Env queuedStateWithCall
    (("call_1")) (("oops")) rfl (by decide)
  exact ⟨by rw [h.1]; rfl, h.2.2.2.1⟩

/-- C6 (confirmed): calling `startStudySession` with no deck name while a
remote deck binding is active leaves the binding unchanged — the session stays
bound to the previously bound deck and does not fall back to the mock
source. -/
theorem c6_deck_binding_sticks (env : StudyEnv) (s : SessionState) (d : String)
    (hs : s.sessionRef = true) (hd : s.activeDeckName = some d) :
    (startStudySession env s none).activeDeckName = some d := by
  simp [startStudySession, hs, hd]

/-- C6 (witness): concrete instance on a session bound to deck `D`. -/
theorem c6_deck_binding_witness :
    (startStudySession studyEnvNoCards exhaustedState none).activeDeckName =
      some (("D")) :=
  c6_deck_binding_sticks studyEnvNoCards exhaustedState (("D")) rfl rfl

/-- C7 (confirmed): on every `disconnect` while a session exists, every
acquired microphone track is stopped and the stream ref is cleared, whether or
not the transport teardown call raises (the `catch` swallows the error before
the release code runs). -/
theorem c7_mic_released_on_disconnect (s : SessionState) (teardownFails : Bool)
    (tr : Nat) (hs : s.sessionRef = true) (ht : tr ∈ streamTracks s) :
    tr ∈ (disconnect s teardownFails).stoppedTracks ∧
    (disconnect s teardownFails).stream = none := by
  rcases hst : s.stream with _ | tracks
  · rw [streamTracks, hst] at ht; simp at ht
  · have ht2 : tr ∈ tracks := by rw [streamTracks, hst] at ht; simpa using ht
    constructor
    · simp [disconnect, appendDebug, hs, hst]
      exact Or.inr ht2
    · simp [disconnect, appendDebug, hs, hst]

/-- C7 (witness): track 7 is stopped even when teardown raises. -/
theorem c7_mic_released_witness :
    7 ∈ (disconnect micState true).stoppedTracks ∧
    (disconnect micState true).stream = none :=
  c7_mic_released_on_disconnect micState true 7 rfl (by decide)

/-- C8 (amended): calling `disconnect` when no session exists and no
session-scoped state is held does not throw (the model is a total function)
and leaves every observable field unchanged except the debug transcript,
which gains exactly one `Disconnected.` line. -/
theorem c8_noop_amended (s : SessionState) (teardownFails : Bool)
    (h1 : s.sessionRef = false) (h2 : s.stream = none)
    (h3 : s.isConnected = false) (h4 : s.isStudyMode = false)
    (h5 : s.activeDeckName = none) (h6 : s.currentCardUI = none) :
    disconnect s teardownFails =
      { s with debugInfo := s.debugInfo ++ ("\n") ++ ("Disconnected.") } := by
  rcases s with ⟨ic, icg, em, di, ev, ism, cui, sr, tcn, adn, rq, ccr, st, stt, ms, al⟩
  simp only [] at h1 h2 h3 h4 h5 h6
  subst h1 h2 h3 h4 h5 h6
  rfl

/-- C8 (counterexample): on the quiescent state the call is not a no-op on
observable state — the debug transcript (observable session state per the
spec) changes. -/
theorem c8_debug_line_counterexample :
    baseState.sessionRef = false ∧ baseState.stream = none ∧
    baseState.isConnected = false ∧ baseState.isStudyMode = false ∧
    baseState.activeDeckName = none ∧ baseState.currentCardUI = none ∧
    (disconnect baseState false).debugInfo ≠ baseState.debugInfo := by
  refine ⟨rfl, rfl, rfl, rfl, rfl, rfl, by decide⟩

/-- C8 (witness): concrete instance of `c8_noop_amended`. -/
theorem c8_noop_witness :
    disconnect baseState true =
      { baseState with
          debugInfo := baseState.debugInfo ++ ("\n") ++ ("Disconnected.") } :=
  c8_noop_amended baseState true rfl rfl rfl rfl rfl rfl

/-- C9 (confirmed, in the timed model of the badge effect): setting the
verdict badge to a fresh truthy value at time `t` arms a timer that clears the
badge exactly 3000 ms later; a different verdict set at `t2` inside that
window replaces the timer with its own `t2 + 3000` deadline, and the
superseded timer's firing at `t + 3000` is a no-op — no stale badge survives
past its own window. -/
theorem c9_verdict_self_clear (b : BadgeState) (t : Nat) (v : String)
    (hv : v ≠ ("")) (hne : some v ≠ b.evaluation) :
    (applyEvaluationSet b t (some v)).timerDeadline = some (t + 3000) ∧
    evaluationTimerFire (applyEvaluationSet b t (some v)) (t + 3000) =
      { evaluation := none, timerDeadline := none } ∧
    (∀ t2 v2, t < t2 → t2 < t + 3000 → v2 ≠ ("") → v2 ≠ v →
      (applyEvaluationSet (applyEvaluationSet b t (some v)) t2 (some v2)).timerDeadline
          = some (t2 + 3000) ∧
      evaluationTimerFire
          (applyEvaluationSet (applyEvaluationSet b t (some v)) t2 (some v2))
          (t + 3000) =
        applyEvaluationSet (applyEvaluationSet b t (some v)) t2 (some v2)) := by
  have hb1 : applyEvaluationSet b t (some v) =
      { evaluation := some v, timerDeadline := some (t + 3000) } := by
    simp [applyEvaluationSet, hne, truthyEval, hv]
  refine ⟨by rw [hb1], by rw [hb1]; simp [evaluationTimerFire], ?_⟩
  intro t2 v2 hlt hlt2 hv2 hne2
  have hb2 : applyEvaluationSet (applyEvaluationSet b t (some v)) t2 (some v2) =
      { evaluation := some v2, timerDeadline := some (t2 + 3000) } := by
    rw [hb1]
    simp [applyEvaluationSet, truthyEval, hv2, hne2]
  refine ⟨by rw [hb2], ?_⟩
  rw [hb2]
  simp [evaluationTimerFire]
  omega

/-- C9 (witness): verdict set at 0 clears at 3000; a second verdict at 1000
rearms the deadline to 4000 and the old timer is inert. -/
theorem c9_verdict_self_clear_witness :
    (applyEvaluationSet { evaluation := none, timerDeadline := none } 0
        (some (("correct")))).timerDeadline = some 3000 ∧
    evaluationTimerFire
        (applyEvaluationSet { evaluation := none, timerDeadline := none } 0
          (some (("correct")))) 3000 =
      { evaluation := none, timerDeadline := none } ∧
    (applyEvaluationSet
        (applyEvaluationSet { evaluation := none, timerDeadline := none } 0
          (some (("correct")))) 1000 (some (("incorrect")))).timerDeadline =
      some 4000 := by
  have h := c9_verdict_self_clear { evaluation := none, timerDeadline := none }
    0 (("correct")) (by decide) (by decide)
  exact ⟨h.1, h.2.1,
    (h.2.2 1000 (("incorrect")) (by decide) (by decide) (by decide) (by decide)).1⟩
